import Mathlib

/-!
# blurhashsrc: caps fixation, allocation set-up, queries and frame fill

A shallow embedding of `src/gstblurhashsrc.c` (the `GstBlurHashSrc` element) and
the properties of its virtual methods:

* `gst_blurhash_src_init`, `gst_blurhash_src_set_caps` : the element state;
* `gst_blurhash_src_fixate` : caps fixation towards 128x128;
* `gst_blurhash_src_decide_allocation` : buffer pool selection and configuration;
* `gst_blurhash_src_query` : query handling;
* `gst_blurhash_src_fill` : the per-frame call of the BlurHash decoder.

The element is written against GStreamer. The handful of library calls it makes
are modelled by small definitions that carry the same names as the C functions;
each one says what it stands for. Pointers to buffer pools are natural numbers
into a pool store, `NULL` is `none`. Reference counting has no counterpart
here; of the debug output only the line picked by the switch of the query
method is kept.
-/

namespace BlurHashSrc

/-! ## Constants of the element -/

/-- The constant `DEFAULT_WIDTH_HEIGHT`. -/
def DEFAULT_WIDTH_HEIGHT : Int := 128

/-- The constant `DEFAULT_NUM_CHANNELS`. -/
def DEFAULT_NUM_CHANNELS : Nat := 4

/-- The constant `DEFAULT_PUNCH`. -/
def DEFAULT_PUNCH : Nat := 1

/-- Width of the C type `guint` in bits. -/
def GUINT_BITS : Nat := 32

/-! ## Caps -/

/-- Pixel layouts: the two offered by the source pad template
`gst_blurhash_src_src_template` (RGBA and RGB), and the value of a cleared
video info. -/
inductive GstVideoFormat
  | GST_VIDEO_FORMAT_UNKNOWN
  | GST_VIDEO_FORMAT_RGB
  | GST_VIDEO_FORMAT_RGBA
  deriving DecidableEq, Repr

/-- Value of an integer-typed field of a caps structure: missing, one fixed
integer (`G_TYPE_INT`), or an integer range `[lo, hi]` (`GST_TYPE_INT_RANGE`,
step 1). -/
inductive GstIntField
  | absent
  | int (v : Int)
  | intRange (lo hi : Int)
  deriving DecidableEq, Repr

/-- One `video/x-raw` caps structure: the candidate formats (a one-element list
is a fixed format) and the width and height fields. -/
structure GstStructure where
  format : List GstVideoFormat
  width : GstIntField
  height : GstIntField
  deriving DecidableEq, Repr

/-- Caps: a first structure (index 0) followed by any further alternatives. -/
structure GstCaps where
  head : GstStructure
  tail : List GstStructure
  deriving DecidableEq, Repr

/-- The macro `CLAMP (x, low, high)` of GLib. -/
def CLAMP (x low high : Int) : Int :=
  if x > high then high else if x < low then low else x

/-- The call `gst_structure_get_int`: succeeds only on a fixed integer. -/
def gst_structure_get_int (f : GstIntField) : Option Int :=
  match f with
  | .int v => some v
  | _ => none

/-- The call `gst_structure_fixate_field_nearest_int`: a range is replaced by
the integer of the range nearest to `target`; a missing or fixed field is left
as it is. -/
def gst_structure_fixate_field_nearest_int (f : GstIntField) (target : Int) : GstIntField :=
  match f with
  | .intRange lo hi => .int (CLAMP target lo hi)
  | .int v => .int v
  | .absent => .absent

/-- The call `gst_value_fixate` on an integer field: a range becomes its lower
bound. -/
def gst_value_fixate_int (f : GstIntField) : GstIntField :=
  match f with
  | .intRange lo _ => .int lo
  | .int v => .int v
  | .absent => .absent

/-- The call `gst_caps_fixate`, which is what the base class `fixate` does:
keep the first structure only and fixate every field still open (first format
of a list, lower bound of a range). -/
def gst_caps_fixate (caps : GstCaps) : GstCaps :=
  { head :=
      { format := caps.head.format.take 1
        width := gst_value_fixate_int caps.head.width
        height := gst_value_fixate_int caps.head.height }
    tail := [] }

/-- The method `gst_blurhash_src_fixate` (gstblurhashsrc.c:212-244). -/
def gst_blurhash_src_fixate (caps : GstCaps) : GstCaps :=
  let st := caps.head
  let width : Int :=
    match gst_structure_get_int st.width with
    | some v => v
    | none => DEFAULT_WIDTH_HEIGHT
  let height : Int :=
    match gst_structure_get_int st.height with
    | some v => v
    | none => DEFAULT_WIDTH_HEIGHT
  let st1 := { st with width := gst_structure_fixate_field_nearest_int st.width width }
  let st2 := { st1 with height := gst_structure_fixate_field_nearest_int st1.height height }
  gst_caps_fixate { caps with head := st2 }

/-! ## Element state -/

/-- The fields of `GstVideoInfo` the element reads: format, width, height
(`gint`, never negative) and the frame size in bytes (`gsize`). -/
structure GstVideoInfo where
  format : GstVideoFormat
  width : Nat
  height : Nat
  size : Nat
  deriving DecidableEq, Repr

/-- The record `struct _GstBlurHashSrc` (gstblurhashsrc.h:37-43), without the
parent instance. -/
structure GstBlurHashSrc where
  hash : String
  num_channels : Nat
  info : GstVideoInfo
  deriving DecidableEq, Repr

/-- Bytes per pixel of a packed layout. -/
def bytesPerPixel : GstVideoFormat → Nat
  | .GST_VIDEO_FORMAT_RGBA => 4
  | .GST_VIDEO_FORMAT_RGB => 3
  | .GST_VIDEO_FORMAT_UNKNOWN => 0

/-- Modelled from the spec: `gst_video_info_from_caps` is GStreamer library code
and not part of `src/`. It succeeds on fixed caps (one structure, one format,
fixed width and height, each at least 1) and the frame size it stores is the
footprint `width*height*bytesPerPixel(pixelLayout)` of the data model. -/
def gst_video_info_from_caps (caps : GstCaps) : Option GstVideoInfo :=
  match caps.tail, caps.head.format, caps.head.width, caps.head.height with
  | [], [f], .int w, .int h =>
    if f ≠ .GST_VIDEO_FORMAT_UNKNOWN ∧ 1 ≤ w ∧ 1 ≤ h then
      some { format := f, width := w.toNat, height := h.toNat,
             size := w.toNat * h.toNat * bytesPerPixel f }
    else none
  | _, _, _, _ => none

/-- Instance memory as GObject hands it to the instance initialiser: all
zero. -/
def zeroedInstance : GstBlurHashSrc :=
  { hash := ""
    num_channels := 0
    info := { format := .GST_VIDEO_FORMAT_UNKNOWN, width := 0, height := 0, size := 0 } }

/-- The initialiser `gst_blurhash_src_init` (gstblurhashsrc.c:130-135): sets
the hash and the channel count and nothing else. -/
def gst_blurhash_src_init (blurhashsrc : GstBlurHashSrc) : GstBlurHashSrc :=
  { blurhashsrc with
    hash := "LaJHjmVu8_~po#smR+a~xaoLWCRj"
    num_channels := DEFAULT_NUM_CHANNELS }

/-- The method `gst_blurhash_src_set_caps` (gstblurhashsrc.c:247-265): the
returned flag and the element afterwards. -/
def gst_blurhash_src_set_caps (blurhashsrc : GstBlurHashSrc) (caps : GstCaps) :
    Bool × GstBlurHashSrc :=
  match gst_video_info_from_caps caps with
  | none => (false, blurhashsrc)
  | some info => (true, { blurhashsrc with info := info })

/-! ## Frame fill -/

/-- The enumeration `GstFlowReturn`. -/
inductive GstFlowReturn
  | GST_FLOW_OK
  | GST_FLOW_NOT_LINKED
  | GST_FLOW_FLUSHING
  | GST_FLOW_EOS
  | GST_FLOW_NOT_NEGOTIATED
  | GST_FLOW_ERROR
  | GST_FLOW_NOT_SUPPORTED
  deriving DecidableEq, Repr

/-- A buffer as `gst_blurhash_src_fill` sees it: its length in bytes
(`gst_buffer_get_size`). -/
structure GstBuffer where
  size : Nat
  deriving DecidableEq, Repr

/-- The arguments of one call
`decodeToArray (blurhash, width, height, punch, nChannels, pixelArray)`;
`pixelArray` is always the start of the mapped buffer. -/
structure DecodeCall where
  blurhash : String
  width : Nat
  height : Nat
  punch : Nat
  nChannels : Nat
  deriving DecidableEq, Repr

/-- Modelled from the spec: the decoder (`decode.h`) is not part of `src/`; it
writes one pixel per (x, y) at `channels` bytes per pixel, that is
`width*height*channels` bytes from the start of `pixelArray`. -/
def DecodeCall.footprint (c : DecodeCall) : Nat :=
  c.width * c.height * c.nChannels

/-- Outcome of one `gst_blurhash_src_fill`: the flow return, the element
afterwards, and the decoder calls made, in order. -/
structure FillResult where
  ret : GstFlowReturn
  element : GstBlurHashSrc
  decodeCalls : List DecodeCall
  deriving DecidableEq, Repr

/-- The method `gst_blurhash_src_fill` (gstblurhashsrc.c:416-435). The decoder is a
parameter: it maps the arguments of a call to its `int` result. The buffer size
is read for the debug line only and the result of the decoder is dropped. -/
def gst_blurhash_src_fill (decodeToArray : DecodeCall → Int)
    (blurhashsrc : GstBlurHashSrc) (buf : GstBuffer) : FillResult :=
  let _buf_size := buf.size
  let call : DecodeCall :=
    { blurhash := blurhashsrc.hash
      width := blurhashsrc.info.width
      height := blurhashsrc.info.height
      punch := DEFAULT_PUNCH
      nChannels := blurhashsrc.num_channels }
  let _rc := decodeToArray call
  { ret := .GST_FLOW_OK, element := blurhashsrc, decodeCalls := [call] }

/-! ## Allocation set-up -/

/-- Meta API types an allocation query can list; the element only looks for
`GST_VIDEO_META_API_TYPE`. -/
inductive GType
  | GST_VIDEO_META_API_TYPE
  | other (id : Nat)
  deriving DecidableEq, Repr

/-- The option name `GST_BUFFER_POOL_OPTION_VIDEO_META`. -/
def GST_BUFFER_POOL_OPTION_VIDEO_META : String := "GstBufferPoolOptionVideoMeta"

/-- Configuration of a buffer pool: the parameters of
`gst_buffer_pool_config_set_params` and the enabled options. -/
structure GstBufferPoolConfig where
  caps : Option GstCaps
  size : Nat
  min : Nat
  max : Nat
  options : List String
  deriving DecidableEq, Repr

/-- Configuration of a pool that nobody has configured yet. -/
def GstBufferPoolConfig.empty : GstBufferPoolConfig :=
  { caps := none, size := 0, min := 0, max := 0, options := [] }

/-- The buffer pool objects that exist: the configuration held by each pool
pointer and the next unused pointer. -/
structure PoolStore where
  config : Nat → GstBufferPoolConfig
  next : Nat

/-- One entry of the pool array of an allocation query. -/
structure GstAllocationPool where
  pool : Option Nat
  size : Nat
  min : Nat
  max : Nat
  deriving DecidableEq, Repr

/-- The enumeration `GstQueryType`: the types named in the switch of
`gst_blurhash_src_query`, and two it does not name. -/
inductive GstQueryType
  | GST_QUERY_UNKNOWN
  | GST_QUERY_POSITION
  | GST_QUERY_DURATION
  | GST_QUERY_LATENCY
  | GST_QUERY_JITTER
  | GST_QUERY_RATE
  | GST_QUERY_SEEKING
  | GST_QUERY_SEGMENT
  | GST_QUERY_CONVERT
  | GST_QUERY_FORMATS
  | GST_QUERY_BUFFERING
  | GST_QUERY_CUSTOM
  | GST_QUERY_URI
  | GST_QUERY_ALLOCATION
  | GST_QUERY_SCHEDULING
  | GST_QUERY_ACCEPT_CAPS
  | GST_QUERY_CAPS
  | GST_QUERY_DRAIN
  | GST_QUERY_CONTEXT
  | GST_QUERY_BITRATE
  deriving DecidableEq, Repr

/-- A query: its type and, for an allocation query, the caps, the array of
proposed pools and the listed meta APIs. -/
structure GstQuery where
  qtype : GstQueryType
  caps : Option GstCaps
  pools : List GstAllocationPool
  metas : List GType
  deriving DecidableEq, Repr

/-- The call `gst_video_buffer_pool_new`: a new pool object at the next unused
pointer, not configured yet. -/
def gst_video_buffer_pool_new (store : PoolStore) : Nat × PoolStore :=
  (store.next,
   { config := fun p => if p = store.next then GstBufferPoolConfig.empty else store.config p
     next := store.next + 1 })

/-- The call `gst_buffer_pool_get_config`: a copy of the current
configuration of the pool. -/
def gst_buffer_pool_get_config (store : PoolStore) (pool : Nat) : GstBufferPoolConfig :=
  store.config pool

/-- The call `gst_buffer_pool_config_set_params`. -/
def gst_buffer_pool_config_set_params (config : GstBufferPoolConfig) (caps : GstCaps)
    (size min max : Nat) : GstBufferPoolConfig :=
  { config with caps := some caps, size := size, min := min, max := max }

/-- The call `gst_buffer_pool_config_add_option`: the option is appended unless
it is already enabled. -/
def gst_buffer_pool_config_add_option (config : GstBufferPoolConfig) (option : String) :
    GstBufferPoolConfig :=
  if option ∈ config.options then config
  else { config with options := config.options ++ [option] }

/-- The call `gst_buffer_pool_set_config`: the pool takes the configuration. -/
def gst_buffer_pool_set_config (store : PoolStore) (pool : Nat)
    (config : GstBufferPoolConfig) : PoolStore :=
  { store with config := fun p => if p = pool then config else store.config p }

/-- The call `gst_query_find_allocation_meta`. -/
def gst_query_find_allocation_meta (query : GstQuery) (api : GType) : Bool :=
  decide (api ∈ query.metas)

/-- The call `gst_query_add_allocation_pool`: the entry goes to the end of the
pool array of the query. -/
def gst_query_add_allocation_pool (query : GstQuery) (pool : Option Nat)
    (size min max : Nat) : GstQuery :=
  { query with pools := query.pools ++ [{ pool := pool, size := size, min := min, max := max }] }

/-- Outcome of `gst_blurhash_src_decide_allocation`: the returned flag, the
query as handed to the base class, the pool objects afterwards and the pool the
function configured (the final value of its local `pool`). -/
structure DecideAllocationResult where
  ret : Bool
  query : GstQuery
  store : PoolStore
  pool : Nat

/-- The method `gst_blurhash_src_decide_allocation` (gstblurhashsrc.c:268-310).
The `decide_allocation` of the base class is a parameter. The local `size` is a
`guint`, so the `gsize` value `info.size` is reduced modulo `2^32` when it is
assigned. -/
def gst_blurhash_src_decide_allocation (parent_decide_allocation : GstQuery → Bool)
    (blurhashsrc : GstBlurHashSrc) (query : GstQuery) (store : PoolStore) :
    DecideAllocationResult :=
  let parsed : GstAllocationPool :=
    match query.pools with
    | entry :: _ => entry
    | [] => { pool := none, size := blurhashsrc.info.size % 2 ^ GUINT_BITS, min := 0, max := 0 }
  let size := parsed.size
  let min := parsed.min
  let max := parsed.max
  let (pool, store1) :=
    match parsed.pool with
    | some p => (p, store)
    | none => gst_video_buffer_pool_new store
  let config := gst_buffer_pool_get_config store1 pool
  let config1 :=
    match query.caps with
    | some caps => gst_buffer_pool_config_set_params config caps size min max
    | none => config
  let config2 :=
    if gst_query_find_allocation_meta query .GST_VIDEO_META_API_TYPE then
      gst_buffer_pool_config_add_option config1 GST_BUFFER_POOL_OPTION_VIDEO_META
    else config1
  let store2 := gst_buffer_pool_set_config store1 pool config2
  let query1 := gst_query_add_allocation_pool query (some pool) size min max
  { ret := parent_decide_allocation query1, query := query1, store := store2, pool := pool }

/-! ## Queries -/

/-- The debug line the switch of `gst_blurhash_src_query` prints for a query
type; no line for a type the switch does not name. -/
def queryDebugLine : GstQueryType → Option String
  | .GST_QUERY_POSITION => some "GST_QUERY_POSITION"
  | .GST_QUERY_DURATION => some "GST_QUERY_DURATION"
  | .GST_QUERY_LATENCY => some "GST_QUERY_LATENCY"
  | .GST_QUERY_JITTER => some "GST_QUERY_JITTER"
  | .GST_QUERY_RATE => some "GST_QUERY_RATE"
  | .GST_QUERY_SEEKING => some "GST_QUERY_SEEKING"
  | .GST_QUERY_SEGMENT => some "GST_QUERY_SEGMENT"
  | .GST_QUERY_CONVERT => some "GST_QUERY_CONVERT"
  | .GST_QUERY_FORMATS => some "GST_QUERY_FORMATS"
  | .GST_QUERY_BUFFERING => some "GST_QUERY_BUFFERING"
  | .GST_QUERY_CUSTOM => some "GST_QUERY_CUSTOM"
  | .GST_QUERY_URI => some "GST_QUERY_URI"
  | .GST_QUERY_ALLOCATION => some "GST_QUERY_ALLOCATION"
  | .GST_QUERY_SCHEDULING => some "GST_QUERY_SCHEDULING"
  | .GST_QUERY_ACCEPT_CAPS => some "GST_QUERY_ACCEPT_CAPS"
  | .GST_QUERY_CAPS => some "GST_QUERY_CAPS"
  | .GST_QUERY_DRAIN => some "GST_QUERY_DRAIN"
  | .GST_QUERY_CONTEXT => some "GST_QUERY_CONTEXT"
  | .GST_QUERY_UNKNOWN => none
  | .GST_QUERY_BITRATE => none

/-- Outcome of `gst_blurhash_src_query`: the returned flag, the query as the
base class left it, the value of the local `res` and the debug line. -/
structure QueryResult where
  ret : Bool
  query : GstQuery
  res : Bool
  debugLine : Option String
  deriving DecidableEq, Repr

/-- The method `gst_blurhash_src_query` (gstblurhashsrc.c:345-413). The `query`
of the base class is a parameter: it answers with a flag and may write its
answer into the query. Every case of the switch only logs; the flag of the base
class is stored in `res` and the function returns `TRUE`. -/
def gst_blurhash_src_query (parent_query : GstQuery → Bool × GstQuery) (query : GstQuery) :
    QueryResult :=
  let line := queryDebugLine query.qtype
  let (res, query1) := parent_query query
  { ret := true, query := query1, res := res, debugLine := line }

/-- The method `gst_blurhash_src_is_seekable` (gstblurhashsrc.c:334-342). -/
def gst_blurhash_src_is_seekable (_blurhashsrc : GstBlurHashSrc) : Bool := false

/-! ## Definitions used to state the properties -/

/-- Fixed caps: one structure, one format, fixed width and height. -/
def fixedCaps (f : GstVideoFormat) (w h : Int) : GstCaps :=
  { head := { format := [f], width := .int w, height := .int h }, tail := [] }

/-- A freshly constructed element: zeroed instance memory after
`gst_blurhash_src_init`. -/
def freshElement : GstBlurHashSrc := gst_blurhash_src_init zeroedInstance

/-- The element after a run of `gst_blurhash_src_set_caps` calls, one per entry
of the list, in order. -/
def setCapsRun (blurhashsrc : GstBlurHashSrc) (capsList : List GstCaps) : GstBlurHashSrc :=
  capsList.foldl (fun e c => (gst_blurhash_src_set_caps e c).2) blurhashsrc

/-- An allocation query with the given caps, pool entries and meta APIs. -/
def allocationQuery (caps : Option GstCaps) (pools : List GstAllocationPool)
    (metas : List GType) : GstQuery :=
  { qtype := .GST_QUERY_ALLOCATION, caps := caps, pools := pools, metas := metas }

/-- A pool store in which no pool exists yet. -/
def emptyStore : PoolStore :=
  { config := fun _ => GstBufferPoolConfig.empty, next := 0 }

/-- What fixating a range `[lo, hi]` towards 128 has to give: a fixed integer
inside the range, nearest to 128 among the integers of the range, hence 128
itself when the range holds it and the nearer bound otherwise. -/
def NearestTo128 (lo hi : Int) (f : GstIntField) : Prop :=
  ∃ v : Int, f = .int v ∧ lo ≤ v ∧ v ≤ hi ∧
    (∀ x : Int, lo ≤ x → x ≤ hi → |v - 128| ≤ |x - 128|) ∧
    (lo ≤ 128 → 128 ≤ hi → v = 128) ∧
    (128 < lo → v = lo) ∧
    (hi < 128 → v = hi)

/-- The configuration a pool holds before `gst_blurhash_src_decide_allocation`
touches it: that of the pool proposed in the first entry of the query, or that
of a new pool when the query has no entry or the entry has no pool. -/
def configBefore (query : GstQuery) (store : PoolStore) : GstBufferPoolConfig :=
  match query.pools with
  | entry :: _ =>
    match entry.pool with
    | some p => store.config p
    | none => GstBufferPoolConfig.empty
  | [] => GstBufferPoolConfig.empty

/-! ## Frame fill: properties -/

/-- The decoder call made by a fill is fixed by the element alone. -/
theorem fill_calls (dec : DecodeCall → Int) (s : GstBlurHashSrc) (buf : GstBuffer) :
    (gst_blurhash_src_fill dec s buf).decodeCalls =
      [{ blurhash := s.hash, width := s.info.width, height := s.info.height,
         punch := DEFAULT_PUNCH, nChannels := s.num_channels }] := rfl

/-- A failed `gst_blurhash_src_set_caps` leaves the element as it was. -/
theorem set_caps_failed_unchanged (s : GstBlurHashSrc) (caps : GstCaps)
    (h : (gst_blurhash_src_set_caps s caps).1 = false) :
    (gst_blurhash_src_set_caps s caps).2 = s := by
  unfold gst_blurhash_src_set_caps at h ⊢
  cases hc : gst_video_info_from_caps caps with
  | none => rfl
  | some info => rw [hc] at h; simp at h

/-- A run of failed `gst_blurhash_src_set_caps` calls leaves the element as it
was. -/
theorem setCapsRun_failed (capsList : List GstCaps) (s : GstBlurHashSrc)
    (h : ∀ c ∈ capsList, ∀ e, (gst_blurhash_src_set_caps e c).1 = false) :
    setCapsRun s capsList = s := by
  induction capsList generalizing s with
  | nil => rfl
  | cons c rest ih =>
    have hc := set_caps_failed_unchanged s c (h c (List.mem_cons_self c rest) s)
    have hrest : ∀ d ∈ rest, ∀ e, (gst_blurhash_src_set_caps e d).1 = false :=
      fun d hd e => h d (List.mem_cons_of_mem c hd) e
    show setCapsRun (gst_blurhash_src_set_caps s c).2 rest = s
    rw [hc]
    exact ih s hrest

/-- C1, as stated, fails: on an element negotiated to 64x64 RGBA (footprint
64*64*4 = 16384 bytes) a fill into a buffer of 10 bytes returns
`GST_FLOW_OK`. -/
theorem C1_counterexample :
    (gst_blurhash_src_fill (fun _ => 0)
        (gst_blurhash_src_set_caps freshElement (fixedCaps .GST_VIDEO_FORMAT_RGBA 64 64)).2
        { size := 10 }).ret = GstFlowReturn.GST_FLOW_OK ∧
    (gst_blurhash_src_fill (fun _ => 0)
        (gst_blurhash_src_set_caps freshElement (fixedCaps .GST_VIDEO_FORMAT_RGBA 64 64)).2
        { size := 10 }).decodeCalls.map DecodeCall.footprint = [16384] ∧
    (10 : Nat) < 16384 := by
  refine ⟨rfl, ?_, by decide⟩
  decide

/-- C1, amended: for every element state and every buffer, whatever its length,
`gst_blurhash_src_fill` returns `GST_FLOW_OK` and asks the codec, once, to
write `width*height*num_channels` bytes; the buffer length takes no part in it
(any two buffers give the same outcome). -/
theorem C1_fill_success_whatever_buffer_size (dec : DecodeCall → Int) (s : GstBlurHashSrc)
    (buf : GstBuffer) :
    (gst_blurhash_src_fill dec s buf).ret = GstFlowReturn.GST_FLOW_OK ∧
    (gst_blurhash_src_fill dec s buf).decodeCalls.map DecodeCall.footprint =
      [s.info.width * s.info.height * s.num_channels] ∧
    ∀ buf2 : GstBuffer, gst_blurhash_src_fill dec s buf2 = gst_blurhash_src_fill dec s buf :=
  ⟨rfl, rfl, fun _ => rfl⟩

/-- C3, as stated, fails: with a decoder that reports failure (-1) on every
call, a fill on a negotiated element returns `GST_FLOW_OK`, not a flow
error. -/
theorem C3_counterexample :
    (gst_blurhash_src_fill (fun _ => -1)
        (gst_blurhash_src_set_caps freshElement (fixedCaps .GST_VIDEO_FORMAT_RGBA 64 64)).2
        { size := 16384 }).ret = GstFlowReturn.GST_FLOW_OK ∧
    (gst_blurhash_src_fill (fun _ => -1)
        (gst_blurhash_src_set_caps freshElement (fixedCaps .GST_VIDEO_FORMAT_RGBA 64 64)).2
        { size := 16384 }).ret ≠ GstFlowReturn.GST_FLOW_ERROR := by
  decide

/-- C3, amended: for every frame request in which the decoder reports failure
(a result other than 0) for the current hash token and parameters,
`gst_blurhash_src_fill` still returns `GST_FLOW_OK` although every decoder call
it made failed, and it leaves the element state (hash, num_channels, video
info) unchanged. -/
theorem C3_fill_drops_decoder_failure (dec : DecodeCall → Int) (s : GstBlurHashSrc)
    (buf : GstBuffer)
    (hfail : dec { blurhash := s.hash, width := s.info.width, height := s.info.height,
                   punch := DEFAULT_PUNCH, nChannels := s.num_channels } ≠ 0) :
    (gst_blurhash_src_fill dec s buf).ret = GstFlowReturn.GST_FLOW_OK ∧
    (gst_blurhash_src_fill dec s buf).element = s ∧
    (gst_blurhash_src_fill dec s buf).decodeCalls ≠ [] ∧
    ∀ c ∈ (gst_blurhash_src_fill dec s buf).decodeCalls, dec c ≠ 0 := by
  refine ⟨rfl, rfl, ?_, ?_⟩
  · rw [fill_calls]
    exact List.cons_ne_nil _ _
  · intro c hc
    rw [fill_calls, List.mem_singleton] at hc
    rw [hc]
    exact hfail

/-- Witness for C3: a decoder that always reports -1, on a fresh element. -/
theorem C3_fill_drops_decoder_failure_witness :
    (gst_blurhash_src_fill (fun _ => -1) freshElement { size := 0 }).ret
        = GstFlowReturn.GST_FLOW_OK ∧
    (gst_blurhash_src_fill (fun _ => -1) freshElement { size := 0 }).element = freshElement ∧
    (gst_blurhash_src_fill (fun _ => -1) freshElement { size := 0 }).decodeCalls ≠ [] ∧
    ∀ c ∈ (gst_blurhash_src_fill (fun _ => -1) freshElement { size := 0 }).decodeCalls,
      (fun _ => -1 : DecodeCall → Int) c ≠ 0 :=
  C3_fill_drops_decoder_failure (fun _ => -1) freshElement { size := 0 }
    (by
      show (-1 : Int) ≠ 0
      decide)

/-- C4, as stated, fails: a fill on a freshly initialised element, on which no
`gst_blurhash_src_set_caps` ever ran, returns `GST_FLOW_OK` (not
`GST_FLOW_NOT_NEGOTIATED`) and calls the decoder with the never negotiated
geometry 0x0. -/
theorem C4_counterexample :
    (gst_blurhash_src_fill (fun _ => 0) freshElement { size := 16384 }).ret
        = GstFlowReturn.GST_FLOW_OK ∧
    (gst_blurhash_src_fill (fun _ => 0) freshElement { size := 16384 }).ret
        ≠ GstFlowReturn.GST_FLOW_NOT_NEGOTIATED ∧
    (gst_blurhash_src_fill (fun _ => 0) freshElement { size := 16384 }).decodeCalls =
      [{ blurhash := "LaJHjmVu8_~po#smR+a~xaoLWCRj", width := 0, height := 0,
         punch := 1, nChannels := 4 }] := by
  decide

/-- C4, amended: if `gst_blurhash_src_fill` is called on an element on which
`gst_blurhash_src_set_caps` has never succeeded (initialised from instance
memory `m`, then only failed `set_caps` calls), it returns `GST_FLOW_OK` and
calls the decoder once, with the width and height found in the never negotiated
video info, the initial hash, punch 1 and 4 channels. -/
theorem C4_fill_before_negotiation (dec : DecodeCall → Int) (m : GstBlurHashSrc)
    (capsList : List GstCaps) (buf : GstBuffer)
    (hfailed : ∀ c ∈ capsList, ∀ e, (gst_blurhash_src_set_caps e c).1 = false) :
    (gst_blurhash_src_fill dec (setCapsRun (gst_blurhash_src_init m) capsList) buf).ret
        = GstFlowReturn.GST_FLOW_OK ∧
    (gst_blurhash_src_fill dec (setCapsRun (gst_blurhash_src_init m) capsList) buf).decodeCalls =
      [{ blurhash := "LaJHjmVu8_~po#smR+a~xaoLWCRj", width := m.info.width,
         height := m.info.height, punch := 1, nChannels := 4 }] := by
  rw [setCapsRun_failed capsList (gst_blurhash_src_init m) hfailed]
  exact ⟨rfl, rfl⟩

/-- Witness for C4: a fresh element after one `set_caps` with unfixed caps
(width still a range), which fails. -/
theorem C4_fill_before_negotiation_witness :
    (gst_blurhash_src_fill (fun _ => 0)
        (setCapsRun (gst_blurhash_src_init zeroedInstance)
          [{ head := { format := [.GST_VIDEO_FORMAT_RGBA], width := .intRange 1 4096,
                       height := .int 64 }, tail := [] }])
        { size := 16384 }).ret = GstFlowReturn.GST_FLOW_OK ∧
    (gst_blurhash_src_fill (fun _ => 0)
        (setCapsRun (gst_blurhash_src_init zeroedInstance)
          [{ head := { format := [.GST_VIDEO_FORMAT_RGBA], width := .intRange 1 4096,
                       height := .int 64 }, tail := [] }])
        { size := 16384 }).decodeCalls =
      [{ blurhash := "LaJHjmVu8_~po#smR+a~xaoLWCRj", width := 0, height := 0,
         punch := 1, nChannels := 4 }] :=
  C4_fill_before_negotiation (fun _ => 0) zeroedInstance _ { size := 16384 }
    (by
      intro c hc e
      rw [List.mem_singleton] at hc
      subst hc
      rfl)

/-! ## Caps fixation: properties -/

/-- Clamping 128 into a non-empty range gives the nearest integer of the
range. -/
theorem clamp_nearest (lo hi : Int) (h : lo ≤ hi) :
    NearestTo128 lo hi (.int (CLAMP 128 lo hi)) := by
  refine ⟨CLAMP 128 lo hi, rfl, ?_, ?_, ?_, ?_, ?_, ?_⟩
  · unfold CLAMP; split_ifs <;> omega
  · unfold CLAMP; split_ifs <;> omega
  · intro x hx1 hx2
    unfold CLAMP
    split_ifs with h1 h2
    · rw [abs_le]; constructor
      · have := neg_abs_le (x - 128); have := le_abs_self (x - 128)
        have := neg_le_abs (x - 128); omega
      · have := neg_le_abs (x - 128); omega
    · rw [abs_le]; constructor
      · have := le_abs_self (x - 128); omega
      · have := le_abs_self (x - 128); omega
    · simp
  · intro h1 h2; unfold CLAMP; split_ifs <;> omega
  · intro h1; unfold CLAMP; split_ifs <;> omega
  · intro h1; unfold CLAMP; split_ifs <;> omega

/-- The width after `gst_blurhash_src_fixate` depends on the width field
alone. -/
theorem fixate_width (caps : GstCaps) :
    (gst_blurhash_src_fixate caps).head.width =
      gst_value_fixate_int (gst_structure_fixate_field_nearest_int caps.head.width
        (match gst_structure_get_int caps.head.width with
         | some v => v
         | none => DEFAULT_WIDTH_HEIGHT)) := rfl

/-- The height after `gst_blurhash_src_fixate` depends on the height field
alone. -/
theorem fixate_height (caps : GstCaps) :
    (gst_blurhash_src_fixate caps).head.height =
      gst_value_fixate_int (gst_structure_fixate_field_nearest_int caps.head.height
        (match gst_structure_get_int caps.head.height with
         | some v => v
         | none => DEFAULT_WIDTH_HEIGHT)) := rfl

/-- C7: for every caps structure, if the width field is an integer range
`[lo, hi]` then `gst_blurhash_src_fixate` yields a fixed width inside the range
that is the in-range value nearest to 128 (128 when `lo <= 128 <= hi`, `lo`
when `128 < lo`, `hi` when `hi < 128`), whatever the height field is; and the
same for the height, whatever the width field is. -/
theorem C7_fixate_nearest_128 (caps : GstCaps) :
    (∀ lo hi : Int, caps.head.width = .intRange lo hi → lo ≤ hi →
      NearestTo128 lo hi (gst_blurhash_src_fixate caps).head.width) ∧
    (∀ lo hi : Int, caps.head.height = .intRange lo hi → lo ≤ hi →
      NearestTo128 lo hi (gst_blurhash_src_fixate caps).head.height) := by
  constructor
  · intro lo hi hw hle
    rw [fixate_width, hw]
    exact clamp_nearest lo hi hle
  · intro lo hi hh hle
    rw [fixate_height, hh]
    exact clamp_nearest lo hi hle

/-- Witness for C7: width offered in `[1, 1000]`, height in `[200, 300]`. -/
theorem C7_fixate_nearest_128_witness :
    NearestTo128 1 1000
      (gst_blurhash_src_fixate
        { head := { format := [.GST_VIDEO_FORMAT_RGBA, .GST_VIDEO_FORMAT_RGB],
                    width := .intRange 1 1000, height := .intRange 200 300 },
          tail := [] }).head.width ∧
    NearestTo128 200 300
      (gst_blurhash_src_fixate
        { head := { format := [.GST_VIDEO_FORMAT_RGBA, .GST_VIDEO_FORMAT_RGB],
                    width := .intRange 1 1000, height := .intRange 200 300 },
          tail := [] }).head.height :=
  ⟨(C7_fixate_nearest_128 _).1 1 1000 rfl (by decide),
   (C7_fixate_nearest_128 _).2 200 300 rfl (by decide)⟩

/-! ## Queries: properties -/

/-- The query method hands every query to the `query` of the base class: the
query it leaves behind is the one the base class left, and the local `res`
holds the answer of the base class. -/
theorem query_forwards_to_base_class (parent_query : GstQuery → Bool × GstQuery)
    (query : GstQuery) :
    (gst_blurhash_src_query parent_query query).query = (parent_query query).2 ∧
    (gst_blurhash_src_query parent_query query).res = (parent_query query).1 :=
  ⟨rfl, rfl⟩

/-- C8 fails on the code: on a position, a duration and a seeking query that
the base class answers negatively (`res` is `FALSE`), `gst_blurhash_src_query`
returns `TRUE`, reporting the query as handled; `res` is assigned and never
read. -/
theorem C8_negative_answer_dropped :
    ((gst_blurhash_src_query (fun q => (false, q))
        { qtype := .GST_QUERY_POSITION, caps := none, pools := [], metas := [] }).res = false ∧
     (gst_blurhash_src_query (fun q => (false, q))
        { qtype := .GST_QUERY_POSITION, caps := none, pools := [], metas := [] }).ret = true) ∧
    ((gst_blurhash_src_query (fun q => (false, q))
        { qtype := .GST_QUERY_DURATION, caps := none, pools := [], metas := [] }).res = false ∧
     (gst_blurhash_src_query (fun q => (false, q))
        { qtype := .GST_QUERY_DURATION, caps := none, pools := [], metas := [] }).ret = true) ∧
    ((gst_blurhash_src_query (fun q => (false, q))
        { qtype := .GST_QUERY_SEEKING, caps := none, pools := [], metas := [] }).res = false ∧
     (gst_blurhash_src_query (fun q => (false, q))
        { qtype := .GST_QUERY_SEEKING, caps := none, pools := [], metas := [] }).ret = true) := by
  decide

/-! ## Allocation set-up: properties -/

/-- A video info stored by `gst_video_info_from_caps` has width and height at
least 1, a known format, and the footprint as its size. -/
theorem from_caps_size (caps : GstCaps) (info : GstVideoInfo)
    (h : gst_video_info_from_caps caps = some info) :
    info.size = info.width * info.height * bytesPerPixel info.format ∧
    1 ≤ info.width ∧ 1 ≤ info.height ∧ info.format ≠ .GST_VIDEO_FORMAT_UNKNOWN := by
  unfold gst_video_info_from_caps at h
  split at h
  · split_ifs at h with hc
    · obtain ⟨hf, hw, hh⟩ := hc
      simp only [Option.some.injEq] at h
      subst h
      refine ⟨rfl, ?_, ?_, hf⟩
      · show 1 ≤ Int.toNat _; omega
      · show 1 ≤ Int.toNat _; omega
  · simp at h

/-- After a successful `gst_blurhash_src_set_caps` the stored video info is the
one parsed from the caps; hash and channel count are untouched. -/
theorem set_caps_ok (s0 s : GstBlurHashSrc) (caps : GstCaps)
    (h : gst_blurhash_src_set_caps s0 caps = (true, s)) :
    gst_video_info_from_caps caps = some s.info ∧ s.hash = s0.hash ∧
    s.num_channels = s0.num_channels := by
  unfold gst_blurhash_src_set_caps at h
  cases hc : gst_video_info_from_caps caps with
  | none => rw [hc] at h; simp at h
  | some info =>
    rw [hc] at h
    simp only [Prod.mk.injEq, true_and] at h
    subst h
    exact ⟨rfl, rfl, rfl⟩

/-- Adding an option leaves the parameters of a configuration alone. -/
theorem add_option_params (config : GstBufferPoolConfig) (option : String) :
    (gst_buffer_pool_config_add_option config option).caps = config.caps ∧
    (gst_buffer_pool_config_add_option config option).size = config.size ∧
    (gst_buffer_pool_config_add_option config option).min = config.min ∧
    (gst_buffer_pool_config_add_option config option).max = config.max := by
  unfold gst_buffer_pool_config_add_option
  split_ifs <;> exact ⟨rfl, rfl, rfl, rfl⟩

/-- Without a pool entry in the query: the outcome, step by step. -/
theorem decide_allocation_no_entry (parent : GstQuery → Bool) (s : GstBlurHashSrc)
    (query : GstQuery) (store : PoolStore) (h : query.pools = []) :
    (gst_blurhash_src_decide_allocation parent s query store).pool = store.next ∧
    (gst_blurhash_src_decide_allocation parent s query store).store.next = store.next + 1 ∧
    (gst_blurhash_src_decide_allocation parent s query store).query.pools =
      [{ pool := some store.next, size := s.info.size % 2 ^ GUINT_BITS, min := 0, max := 0 }] := by
  unfold gst_blurhash_src_decide_allocation
  simp [h, gst_video_buffer_pool_new, gst_query_add_allocation_pool,
    gst_buffer_pool_set_config]

/-- With a pool entry in the query: the pool configured is the proposed one, or
a new one when the entry has no pool; the entry appended carries the size, min
and max of the first entry. -/
theorem decide_allocation_entry (parent : GstQuery → Bool) (s : GstBlurHashSrc)
    (query : GstQuery) (store : PoolStore) (entry : GstAllocationPool)
    (rest : List GstAllocationPool) (h : query.pools = entry :: rest) :
    (gst_blurhash_src_decide_allocation parent s query store).pool =
      (match entry.pool with
       | some p => p
       | none => store.next) ∧
    (gst_blurhash_src_decide_allocation parent s query store).query.pools =
      query.pools ++
        [{ pool := some (gst_blurhash_src_decide_allocation parent s query store).pool,
           size := entry.size, min := entry.min, max := entry.max }] := by
  unfold gst_blurhash_src_decide_allocation
  cases hp : entry.pool with
  | some p => simp [h, hp, gst_query_add_allocation_pool]
  | none => simp [h, hp, gst_video_buffer_pool_new, gst_query_add_allocation_pool]

/-- The configuration the configured pool ends up with. -/
theorem decide_allocation_config (parent : GstQuery → Bool) (s : GstBlurHashSrc)
    (query : GstQuery) (store : PoolStore) :
    (gst_blurhash_src_decide_allocation parent s query store).store.config
        (gst_blurhash_src_decide_allocation parent s query store).pool =
      (if gst_query_find_allocation_meta query .GST_VIDEO_META_API_TYPE then
        gst_buffer_pool_config_add_option
          (match query.caps with
           | some caps =>
             gst_buffer_pool_config_set_params (configBefore query store) caps
               (match query.pools with
                | entry :: _ => entry.size
                | [] => s.info.size % 2 ^ GUINT_BITS)
               (match query.pools with
                | entry :: _ => entry.min
                | [] => 0)
               (match query.pools with
                | entry :: _ => entry.max
                | [] => 0)
           | none => configBefore query store)
          GST_BUFFER_POOL_OPTION_VIDEO_META
      else
        (match query.caps with
         | some caps =>
           gst_buffer_pool_config_set_params (configBefore query store) caps
             (match query.pools with
              | entry :: _ => entry.size
              | [] => s.info.size % 2 ^ GUINT_BITS)
             (match query.pools with
              | entry :: _ => entry.min
              | [] => 0)
             (match query.pools with
              | entry :: _ => entry.max
              | [] => 0)
         | none => configBefore query store)) := by
  unfold gst_blurhash_src_decide_allocation configBefore
  cases hq : query.pools with
  | nil =>
    simp [gst_video_buffer_pool_new, gst_buffer_pool_set_config, gst_buffer_pool_get_config]
  | cons entry rest =>
    cases hp : entry.pool with
    | some p =>
      simp [hp, gst_buffer_pool_set_config, gst_buffer_pool_get_config]
    | none =>
      simp [hp, gst_video_buffer_pool_new, gst_buffer_pool_set_config,
        gst_buffer_pool_get_config]

/-- C6, as stated, fails: a query without caps proposes pool 0 with size 4096,
min 1, max 2; the entry reported back carries these values, but the pool is not
configured with them: its configuration keeps the size, min and max it had
(all 0). -/
theorem C6_counterexample :
    (gst_blurhash_src_decide_allocation (fun _ => true) freshElement
        (allocationQuery none [{ pool := some 0, size := 4096, min := 1, max := 2 }] [])
        { config := fun _ => GstBufferPoolConfig.empty, next := 1 }).pool = 0 ∧
    (gst_blurhash_src_decide_allocation (fun _ => true) freshElement
        (allocationQuery none [{ pool := some 0, size := 4096, min := 1, max := 2 }] [])
        { config := fun _ => GstBufferPoolConfig.empty, next := 1 }).query.pools =
      [{ pool := some 0, size := 4096, min := 1, max := 2 },
       { pool := some 0, size := 4096, min := 1, max := 2 }] ∧
    ((gst_blurhash_src_decide_allocation (fun _ => true) freshElement
        (allocationQuery none [{ pool := some 0, size := 4096, min := 1, max := 2 }] [])
        { config := fun _ => GstBufferPoolConfig.empty, next := 1 }).store.config 0).size = 0 ∧
    ((gst_blurhash_src_decide_allocation (fun _ => true) freshElement
        (allocationQuery none [{ pool := some 0, size := 4096, min := 1, max := 2 }] [])
        { config := fun _ => GstBufferPoolConfig.empty, next := 1 }).store.config 0).min = 0 ∧
    ((gst_blurhash_src_decide_allocation (fun _ => true) freshElement
        (allocationQuery none [{ pool := some 0, size := 4096, min := 1, max := 2 }] [])
        { config := fun _ => GstBufferPoolConfig.empty, next := 1 }).store.config 0).max = 0 := by
  decide

/-- C6, amended: for every allocation query that proposes at least one pool
entry, `gst_blurhash_src_decide_allocation` reports back (appends to the query)
an entry with the size, min and max of the first entry unchanged; when the
query carries caps it configures the pool with exactly these caps and values;
when the query carries no caps it sets no parameters and the pool keeps the
caps, size, min and max it had; and the whole outcome is the same whatever the
stored video info is. -/
theorem C6_proposed_entry_adopted (parent : GstQuery → Bool) (s : GstBlurHashSrc)
    (query : GstQuery) (store : PoolStore) (entry : GstAllocationPool)
    (rest : List GstAllocationPool) (h : query.pools = entry :: rest) :
    (gst_blurhash_src_decide_allocation parent s query store).query.pools =
      query.pools ++
        [{ pool := some (gst_blurhash_src_decide_allocation parent s query store).pool,
           size := entry.size, min := entry.min, max := entry.max }] ∧
    (∀ caps : GstCaps, query.caps = some caps →
      ((gst_blurhash_src_decide_allocation parent s query store).store.config
          (gst_blurhash_src_decide_allocation parent s query store).pool).caps = some caps ∧
      ((gst_blurhash_src_decide_allocation parent s query store).store.config
          (gst_blurhash_src_decide_allocation parent s query store).pool).size = entry.size ∧
      ((gst_blurhash_src_decide_allocation parent s query store).store.config
          (gst_blurhash_src_decide_allocation parent s query store).pool).min = entry.min ∧
      ((gst_blurhash_src_decide_allocation parent s query store).store.config
          (gst_blurhash_src_decide_allocation parent s query store).pool).max = entry.max) ∧
    (query.caps = none →
      ((gst_blurhash_src_decide_allocation parent s query store).store.config
          (gst_blurhash_src_decide_allocation parent s query store).pool).caps =
        (configBefore query store).caps ∧
      ((gst_blurhash_src_decide_allocation parent s query store).store.config
          (gst_blurhash_src_decide_allocation parent s query store).pool).size =
        (configBefore query store).size ∧
      ((gst_blurhash_src_decide_allocation parent s query store).store.config
          (gst_blurhash_src_decide_allocation parent s query store).pool).min =
        (configBefore query store).min ∧
      ((gst_blurhash_src_decide_allocation parent s query store).store.config
          (gst_blurhash_src_decide_allocation parent s query store).pool).max =
        (configBefore query store).max) ∧
    (∀ s2 : GstBlurHashSrc,
      gst_blurhash_src_decide_allocation parent s2 query store =
        gst_blurhash_src_decide_allocation parent s query store) := by
  refine ⟨(decide_allocation_entry parent s query store entry rest h).2, ?_, ?_, ?_⟩
  · intro caps hcaps
    rw [decide_allocation_config, hcaps, h]
    split_ifs
    · obtain ⟨h1, h2, h3, h4⟩ := add_option_params
        (gst_buffer_pool_config_set_params (configBefore query store) caps
          entry.size entry.min entry.max) GST_BUFFER_POOL_OPTION_VIDEO_META
      exact ⟨h1, h2, h3, h4⟩
    · exact ⟨rfl, rfl, rfl, rfl⟩
  · intro hcaps
    rw [decide_allocation_config, hcaps]
    split_ifs
    · exact add_option_params (configBefore query store) GST_BUFFER_POOL_OPTION_VIDEO_META
    · exact ⟨rfl, rfl, rfl, rfl⟩
  · intro s2
    unfold gst_blurhash_src_decide_allocation
    simp only [h]

/-- Witness for C6: one proposed pool with size 100, min 1, max 2, in a query
with caps, on an element negotiated to 64x64 RGBA (video info size 16384): the
entry reported and the size configured are both 100. -/
theorem C6_proposed_entry_adopted_witness :
    (gst_blurhash_src_decide_allocation (fun _ => true)
        (gst_blurhash_src_set_caps freshElement (fixedCaps .GST_VIDEO_FORMAT_RGBA 64 64)).2
        (allocationQuery (some (fixedCaps .GST_VIDEO_FORMAT_RGBA 64 64))
          [{ pool := some 0, size := 100, min := 1, max := 2 }] [])
        { config := fun _ => GstBufferPoolConfig.empty, next := 1 }).query.pools =
      [{ pool := some 0, size := 100, min := 1, max := 2 },
       { pool := some 0, size := 100, min := 1, max := 2 }] ∧
    ((gst_blurhash_src_decide_allocation (fun _ => true)
        (gst_blurhash_src_set_caps freshElement (fixedCaps .GST_VIDEO_FORMAT_RGBA 64 64)).2
        (allocationQuery (some (fixedCaps .GST_VIDEO_FORMAT_RGBA 64 64))
          [{ pool := some 0, size := 100, min := 1, max := 2 }] [])
        { config := fun _ => GstBufferPoolConfig.empty, next := 1 }).store.config 0).size = 100 :=
  ⟨(C6_proposed_entry_adopted (fun _ => true)
      (gst_blurhash_src_set_caps freshElement (fixedCaps .GST_VIDEO_FORMAT_RGBA 64 64)).2
      (allocationQuery (some (fixedCaps .GST_VIDEO_FORMAT_RGBA 64 64))
        [{ pool := some 0, size := 100, min := 1, max := 2 }] [])
      { config := fun _ => GstBufferPoolConfig.empty, next := 1 }
      { pool := some 0, size := 100, min := 1, max := 2 } [] rfl).1,
   ((C6_proposed_entry_adopted (fun _ => true)
      (gst_blurhash_src_set_caps freshElement (fixedCaps .GST_VIDEO_FORMAT_RGBA 64 64)).2
      (allocationQuery (some (fixedCaps .GST_VIDEO_FORMAT_RGBA 64 64))
        [{ pool := some 0, size := 100, min := 1, max := 2 }] [])
      { config := fun _ => GstBufferPoolConfig.empty, next := 1 }
      { pool := some 0, size := 100, min := 1, max := 2 } [] rfl).2.1
        (fixedCaps .GST_VIDEO_FORMAT_RGBA 64 64) rfl).2.1⟩

/-- Where C10 holds: when the query has no entry, or its first entry carries a
pool, the first entry of the query handed to the base class names the pool the
function configured, with the chosen size, min and max. -/
theorem decide_allocation_first_entry (parent : GstQuery → Bool) (s : GstBlurHashSrc)
    (query : GstQuery) (store : PoolStore)
    (h : query.pools = [] ∨ ∃ entry rest p, query.pools = entry :: rest ∧ entry.pool = some p) :
    ∃ size min max,
      (gst_blurhash_src_decide_allocation parent s query store).query.pools.head? =
        some { pool := some (gst_blurhash_src_decide_allocation parent s query store).pool,
               size := size, min := min, max := max } ∧
      (gst_blurhash_src_decide_allocation parent s query store).query.pools.getLast? =
        some { pool := some (gst_blurhash_src_decide_allocation parent s query store).pool,
               size := size, min := min, max := max } := by
  rcases h with h | ⟨entry, rest, p, h, hp⟩
  · obtain ⟨h1, _, h3⟩ := decide_allocation_no_entry parent s query store h
    refine ⟨s.info.size % 2 ^ GUINT_BITS, 0, 0, ?_, ?_⟩ <;> rw [h3, h1] <;> rfl
  · obtain ⟨h1, h2⟩ := decide_allocation_entry parent s query store entry rest h
    rw [hp] at h1
    refine ⟨entry.size, entry.min, entry.max, ?_, ?_⟩
    · rw [h2, h, h1]
      cases entry
      simp at hp
      simp [hp]
    · rw [h2, h1]
      simp

/-- C10 fails on the code: for a query whose only entry has a `NULL` pool (size
16384, min 2, max 4) the function creates and configures pool 0 but appends it
as a second entry; the first entry of the query handed to the base class still
has no pool. -/
theorem C10_null_pool_entry_kept_first :
    (gst_blurhash_src_decide_allocation (fun _ => true)
        (gst_blurhash_src_set_caps freshElement (fixedCaps .GST_VIDEO_FORMAT_RGBA 64 64)).2
        (allocationQuery (some (fixedCaps .GST_VIDEO_FORMAT_RGBA 64 64))
          [{ pool := none, size := 16384, min := 2, max := 4 }] [])
        emptyStore).pool = 0 ∧
    (gst_blurhash_src_decide_allocation (fun _ => true)
        (gst_blurhash_src_set_caps freshElement (fixedCaps .GST_VIDEO_FORMAT_RGBA 64 64)).2
        (allocationQuery (some (fixedCaps .GST_VIDEO_FORMAT_RGBA 64 64))
          [{ pool := none, size := 16384, min := 2, max := 4 }] [])
        emptyStore).query.pools =
      [{ pool := none, size := 16384, min := 2, max := 4 },
       { pool := some 0, size := 16384, min := 2, max := 4 }] ∧
    ((gst_blurhash_src_decide_allocation (fun _ => true)
        (gst_blurhash_src_set_caps freshElement (fixedCaps .GST_VIDEO_FORMAT_RGBA 64 64)).2
        (allocationQuery (some (fixedCaps .GST_VIDEO_FORMAT_RGBA 64 64))
          [{ pool := none, size := 16384, min := 2, max := 4 }] [])
        emptyStore).query.pools.head?.map GstAllocationPool.pool) = some none := by
  decide

/-- C2 fails on the code: caps RGB 4x1 are accepted by `set_caps`; with no pool
proposed `decide_allocation` chooses the video info size 4*1*3 = 12 bytes, yet
a fill on that element returns `GST_FLOW_OK` after asking the codec to write
4*1*4 = 16 bytes, `num_channels` being 4 whatever the negotiated layout. -/
theorem C2_rgb_footprint_mismatch :
    (gst_blurhash_src_set_caps freshElement (fixedCaps .GST_VIDEO_FORMAT_RGB 4 1)).1 = true ∧
    (gst_blurhash_src_decide_allocation (fun _ => true)
        (gst_blurhash_src_set_caps freshElement (fixedCaps .GST_VIDEO_FORMAT_RGB 4 1)).2
        (allocationQuery (some (fixedCaps .GST_VIDEO_FORMAT_RGB 4 1)) [] [])
        emptyStore).query.pools = [{ pool := some 0, size := 12, min := 0, max := 0 }] ∧
    (gst_blurhash_src_fill (fun _ => 0)
        (gst_blurhash_src_set_caps freshElement (fixedCaps .GST_VIDEO_FORMAT_RGB 4 1)).2
        { size := 12 }).ret = GstFlowReturn.GST_FLOW_OK ∧
    (gst_blurhash_src_fill (fun _ => 0)
        (gst_blurhash_src_set_caps freshElement (fixedCaps .GST_VIDEO_FORMAT_RGB 4 1)).2
        { size := 12 }).decodeCalls.map DecodeCall.footprint = [16] ∧
    (12 : Nat) < 16 := by
  decide

/-- For the RGBA layout the three steps agree: after a successful `set_caps`
on RGBA caps the video info size equals the bytes a fill asks the codec to
write, as long as `num_channels` is still the 4 set by the initialiser. -/
theorem rgba_footprint_agrees (dec : DecodeCall → Int) (s0 s : GstBlurHashSrc) (caps : GstCaps)
    (buf : GstBuffer) (hneg : gst_blurhash_src_set_caps s0 caps = (true, s))
    (hfmt : s.info.format = .GST_VIDEO_FORMAT_RGBA) (hch : s0.num_channels = 4) :
    (gst_blurhash_src_fill dec s buf).decodeCalls.map DecodeCall.footprint = [s.info.size] := by
  obtain ⟨hinfo, _, hnum⟩ := set_caps_ok s0 s caps hneg
  have hsize := (from_caps_size caps s.info hinfo).1
  rw [hfmt] at hsize
  rw [fill_calls]
  simp [DecodeCall.footprint, hsize, hnum, hch, bytesPerPixel]

end BlurHashSrc
